import Mathlib

/-!
Shallow embedding of the contextual multi-provider streaming chat pipeline
(`app/chat/services.py`, `app/chat/router.py`, `app/chat/models.py`,
`app/external_apis/*`).  Pure Python functions become Lean functions; the
stateful endpoint `stream_chat_response.generate_stream` becomes an explicit
function from an environment (the behavior of the external collaborators) and
a conversation store to the trace of persistence/network actions, the list of
wire events, and the resulting store.  External collaborator outcomes are
modelled as `Except`/`Option` values supplied by the environment.
-/

/-! ### String utilities

Python's case-insensitive substring classification (`keyword in text.lower()`)
is embedded via an executable lowercase map and substring matcher over the
character list of a `String`. -/

def lowerStr (s : String) : String :=
  ⟨s.data.map Char.toLower⟩

def prefixMatch : List Char → List Char → Bool
  | [], _ => true
  | _ :: _, [] => false
  | a :: p, b :: s => if a = b then prefixMatch p s else false

def substrMatch (p : List Char) : List Char → Bool
  | [] => prefixMatch p []
  | c :: rest => prefixMatch p (c :: rest) || substrMatch p rest

/-- Python `needle in hay` on strings (substring containment). -/
def strContains (hay needle : String) : Bool :=
  substrMatch needle.data hay.data

/-- Python `s.startswith(p)`. -/
def strStartsWith (s p : String) : Bool :=
  prefixMatch p.data s.data

/-! ### Data model (`app/chat/models.py`) -/

inductive MessageRole where
  | system
  | user
  | assistant
deriving DecidableEq, Repr

structure StoredMessage where
  content : String
  role : MessageRole
  model_id : Option String
  created_at : Nat
deriving DecidableEq, Repr

structure Conversation where
  id : String
  title : String
  user_id : String
  model_id : String
  created_at : Nat
  updated_at : Nat
  messages : List StoredMessage
deriving DecidableEq, Repr

abbrev Store := List Conversation

/-- One entry of the `{role, content}` dicts handed to a provider. -/
structure ChatMessage where
  role : MessageRole
  content : String
deriving DecidableEq, Repr

/-! ### Context Enrichment Dispatcher (`ChatService._get_enhanced_context`) -/

/-- Keyword vocabulary of the web-search branch of `_get_enhanced_context`. -/
def freshness_keywords : List String :=
  ["latest", "current", "news", "today", "recent", "what\x27s happening", "update"]

/-- Keyword vocabulary of the crypto branch of `_get_enhanced_context`. -/
def market_keywords : List String :=
  ["bitcoin", "btc", "ethereum", "eth", "crypto", "cryptocurrency",
   "binance", "trading", "price", "market", "coin"]

def matchesFreshness (user_message : String) : Bool :=
  freshness_keywords.any (fun k => strContains (lowerStr user_message) k)

def matchesMarket (user_message : String) : Bool :=
  market_keywords.any (fun k => strContains (lowerStr user_message) k)

/-- A parsed Brave web-search result (`BraveSearchService._parse_search_results`). -/
structure SearchResult where
  title : String
  description : String
  url : String
  published : String
  source : String
deriving DecidableEq, Repr

/-- One entry of the Binance market-data map; the numeric fields are kept as
their rendered strings since only their interpolation into the system prompt is
observable in this pipeline. -/
structure CryptoEntry where
  symbol : String
  price : String
  change : String
deriving DecidableEq, Repr

/-- Behavior of the two external enrichment collaborators for one request:
`Except.ok` is a successful call, `Except.error` a raised exception. -/
structure Collaborators where
  searchResult : Except String (List SearchResult)
  cryptoResult : Except String (List CryptoEntry)

structure EnhancedContext where
  web_search : Option (List SearchResult)
  crypto_data : Option (List CryptoEntry)
deriving DecidableEq, Repr

def emptyContext : EnhancedContext :=
  { web_search := none, crypto_data := none }

/-- `ChatService._get_enhanced_context`: each triggered collaborator call sits
in its own `try`/`except`, a failure only omits that section; the function
itself returns the merged context (the `Except` codomain records that the
translation of the body could in principle propagate an exception). -/
def get_enhanced_context (collab : Collaborators) (user_message : String) :
    Except String EnhancedContext :=
  let context0 : EnhancedContext := { web_search := none, crypto_data := none }
  let context1 :=
    if matchesFreshness user_message then
      match collab.searchResult with
      | Except.ok search_results => { context0 with web_search := some search_results }
      | Except.error _ => context0
    else context0
  let context2 :=
    if matchesMarket user_message then
      match collab.cryptoResult with
      | Except.ok crypto_data => { context1 with crypto_data := some crypto_data }
      | Except.error _ => context1
    else context1
  Except.ok context2

/-! ### Prompt Assembler (`ChatService._prepare_messages`, `count_tokens`) -/

def baseSystemPrompt : String :=
  "You are a helpful AI assistant with access to real-time information."

def webSearchLabel : String :=
  "\n\nCurrent web search results:\n"

def cryptoLabel : String :=
  "\n\nCurrent cryptocurrency market data:\n"

def searchInfoBlock (results : List SearchResult) : String :=
  results.foldl
    (fun acc r => acc ++ "- " ++ r.title ++ ": " ++ r.description ++ "\n")
    webSearchLabel

def cryptoInfoBlock (entries : List CryptoEntry) : String :=
  entries.foldl
    (fun acc e =>
      acc ++ "- " ++ e.symbol ++ ": $" ++ e.price ++ " (24h change: " ++ e.change ++ "%)\n")
    cryptoLabel

/-- Python truthiness of `context.get(key)` for an optional list: present and
non-empty. -/
def truthyList {α : Type} (o : Option (List α)) : Bool :=
  match o with
  | some l => !l.isEmpty
  | none => false

/-- Python `l[-10:]`. -/
def takeLast {α : Type} (n : Nat) (l : List α) : List α :=
  l.drop (l.length - n)

/-- `ChatService._prepare_messages`: system message (base prompt plus the
sections whose context value is truthy), then the last ten stored messages,
then the new user message.  No token limit is consulted anywhere. -/
def prepare_messages (conversation_messages : List StoredMessage)
    (new_message : String) (context : EnhancedContext) : List ChatMessage :=
  let system_content := baseSystemPrompt
  let system_content :=
    if truthyList context.web_search then
      system_content ++ searchInfoBlock (context.web_search.getD [])
    else system_content
  let system_content :=
    if truthyList context.crypto_data then
      system_content ++ cryptoInfoBlock (context.crypto_data.getD [])
    else system_content
  { role := MessageRole.system, content := system_content } ::
    ((takeLast 10 conversation_messages).map
        (fun m => { role := m.role, content := m.content }) ++
      [{ role := MessageRole.user, content := new_message }])

/-- `ChatService.count_tokens`: length of the tiktoken encoding of the text;
the encoding itself is an external collaborator, passed in as `enc`. -/
def count_tokens (enc : String → List Nat) (text : String) : Nat :=
  (enc text).length

/-- Token estimate of a full message list: the sum of `count_tokens` over the
contents (the source defines `count_tokens` only on one text and never applies
it to a list; the pointwise sum is the natural lift). -/
def count_messages_tokens (enc : String → List Nat) (messages : List ChatMessage) : Nat :=
  (messages.map (fun m => count_tokens enc m.content)).sum

/-- A concrete stand-in encoding (one token per character), used to evaluate
the token estimate on explicit inputs. -/
def demoEnc (s : String) : List Nat :=
  s.data.map Char.toNat

def systemContentOf (messages : List ChatMessage) : String :=
  match messages with
  | m :: _ => m.content
  | [] => ""

/-! ### Provider routing and adapters
(`ChatService.generate_ai_response` and `_generate_*_response`) -/

inductive Provider where
  | openai
  | anthropic
  | groq
deriving DecidableEq, Repr

/-- The `if`/`elif` routing chain of `generate_ai_response`; note the chain has
no `else` branch, so an unclaimed model id routes nowhere. -/
def routeModel (model_id : String) : Option Provider :=
  if strStartsWith model_id "gpt" then some Provider.openai
  else if strStartsWith model_id "claude" then some Provider.anthropic
  else if strStartsWith model_id "groq" || strContains (lowerStr model_id) "llama" then
    some Provider.groq
  else none

/-- `groq_model_map` of `_generate_groq_response`. -/
def groq_model_map : List (String × String) :=
  [("groq-llama-3.1-70b", "llama-3.1-70b-versatile"),
   ("groq-llama-3.1-8b", "llama-3.1-8b-instant"),
   ("groq-mixtral", "mixtral-8x7b-32768"),
   ("groq-gemma", "gemma-7b-it")]

/-- `groq_model_map.get(model_id, "llama-3.1-70b-versatile")`. -/
def groqResolve (model_id : String) : String :=
  (groq_model_map.lookup model_id).getD "llama-3.1-70b-versatile"

/-- Observable behavior of one generation backend on one request: the content
deltas it emits, and an exception it raises after them (if any). -/
structure ProviderBehavior where
  deltas : List String
  failure : Option String
deriving DecidableEq, Repr

/-- `_generate_openai_response`: the whole body sits in one `try`; an exception
becomes one final yielded chunk `"Error: ..."`. -/
def openaiResponseChunks (b : ProviderBehavior) : List String :=
  b.deltas ++
    (match b.failure with
     | some e => ["Error: " ++ e]
     | none => [])

/-- `_generate_anthropic_response` has the same `except` shape as OpenAI. -/
def anthropicResponseChunks (b : ProviderBehavior) : List String :=
  b.deltas ++
    (match b.failure with
     | some e => ["Error: " ++ e]
     | none => [])

/-- `_generate_groq_response`: exception text is prefixed differently. -/
def groqResponseChunks (b : ProviderBehavior) : List String :=
  b.deltas ++
    (match b.failure with
     | some e => ["Error with Groq API: " ++ e]
     | none => [])

/-- Chunks relayed by `generate_ai_response` after routing: an unclaimed model
id falls through the `if`/`elif` chain and yields nothing. -/
def generate_ai_response_chunks (b : ProviderBehavior) (model_id : String) : List String :=
  match routeModel model_id with
  | some Provider.openai => openaiResponseChunks b
  | some Provider.anthropic => anthropicResponseChunks b
  | some Provider.groq => groqResponseChunks b
  | none => []

/-! ### Conversation Store (`ChatService.add_message`, conversation lookup) -/

def appendToConversation (c : Conversation) (m : StoredMessage) : Conversation :=
  { c with messages := c.messages ++ [m] }

def applyAppend (conversation_id : String) (m : StoredMessage) (c : Conversation) :
    Conversation :=
  if c.id == conversation_id then appendToConversation c m else c

/-- `ChatService.add_message`: inserts one message row (with `created_at`
defaulted to the current time `now`); no column of the conversations table is
written. -/
def add_message (store : Store) (now : Nat) (conversation_id : String)
    (content : String) (role : MessageRole) (model_id : Option String) : Store :=
  store.map (applyAppend conversation_id
    { content := content, role := role, model_id := model_id, created_at := now })

def findConv (store : Store) (conversation_id : String) : Option Conversation :=
  store.find? (fun c => c.id == conversation_id)

/-- Modelled from the spec: `ChatService.get_conversation_with_messages` is
called by `generate_ai_response` but defined nowhere in the source; per §4.1
it is a Conversation Store read returning the conversation together with its
ordered messages, failing (NotFound) when the id is unknown. -/
def get_conversation_with_messages (store : Store) (conversation_id : String) :
    Option Conversation :=
  findConv store conversation_id

/-! ### Streaming Orchestrator (`stream_chat_response.generate_stream`) -/

inductive WireEvent where
  | content (delta : String)
  | errorEvent (msg : String)
  | done
deriving DecidableEq, Repr

def isErrorEvent : WireEvent → Bool
  | WireEvent.errorEvent _ => true
  | _ => false

/-- Externally visible steps the endpoint performs, in execution order. -/
inductive ChatAction where
  | persistMessage (conversation_id : String) (role : MessageRole) (content : String)
  | fetchHistory (conversation_id : String)
  | searchCall (query : String)
  | cryptoCall
  | providerCall (p : Provider) (model_id : String) (messages : List ChatMessage)
deriving DecidableEq, Repr

structure ChatRequest where
  message : String
  conversation_id : String
  model_id : String
deriving DecidableEq, Repr

/-- Behavior of every external collaborator touched by one request: the
generation backend, the two enrichment providers, and the three database
writes/reads (`some e` means that call raises exception `e`). -/
structure Env where
  now : Nat
  provider : ProviderBehavior
  search : Except String (List SearchResult)
  crypto : Except String (List CryptoEntry)
  userPersistFailure : Option String
  historyFetchFailure : Option String
  assistantPersistFailure : Option String

structure StreamRun where
  actions : List ChatAction
  events : List WireEvent
  store : Store
deriving DecidableEq, Repr

/-- `stream_chat_response.generate_stream`: persist the user message, iterate
`generate_ai_response` relaying each chunk as a content event while
accumulating `full_content`, persist the assistant message, emit `[DONE]`; any
exception escaping a step is caught by the single `except` and emitted as one
final error event. -/
def generate_stream (env : Env) (store : Store) (req : ChatRequest) : StreamRun :=
  match env.userPersistFailure with
  | some e =>
      { actions := [],
        events := [WireEvent.errorEvent ("Error: " ++ e)],
        store := store }
  | none =>
    let store1 := add_message store env.now req.conversation_id req.message
      MessageRole.user (some req.model_id)
    let acts1 := [ChatAction.persistMessage req.conversation_id MessageRole.user req.message]
    match env.historyFetchFailure with
    | some e =>
        { actions := acts1 ++ [ChatAction.fetchHistory req.conversation_id],
          events := [WireEvent.errorEvent ("Error: " ++ e)],
          store := store1 }
    | none =>
      let actsF := acts1 ++ [ChatAction.fetchHistory req.conversation_id]
      match get_conversation_with_messages store1 req.conversation_id with
      | none =>
          { actions := actsF,
            events := [WireEvent.errorEvent "Error: conversation not found"],
            store := store1 }
      | some conversation =>
        match get_enhanced_context
            { searchResult := env.search, cryptoResult := env.crypto } req.message with
        | Except.error e =>
            { actions := actsF,
              events := [WireEvent.errorEvent ("Error: " ++ e)],
              store := store1 }
        | Except.ok context =>
          let enrichActs :=
            (if matchesFreshness req.message then [ChatAction.searchCall req.message] else [])
              ++ (if matchesMarket req.message then [ChatAction.cryptoCall] else [])
          let messages := prepare_messages conversation.messages req.message context
          let chunks := generate_ai_response_chunks env.provider req.model_id
          let provActs :=
            match routeModel req.model_id with
            | some p => [ChatAction.providerCall p req.model_id messages]
            | none => []
          let full_content := String.join chunks
          let contentEvents := chunks.map WireEvent.content
          match env.assistantPersistFailure with
          | some e =>
              { actions := actsF ++ enrichActs ++ provActs,
                events := contentEvents ++ [WireEvent.errorEvent ("Error: " ++ e)],
                store := store1 }
          | none =>
              { actions := actsF ++ enrichActs ++ provActs ++
                  [ChatAction.persistMessage req.conversation_id MessageRole.assistant
                    full_content],
                events := contentEvents ++ [WireEvent.done],
                store := add_message store1 env.now req.conversation_id full_content
                  MessageRole.assistant (some req.model_id) }

/-! ### Concrete demonstration data -/

def convDemo : Conversation :=
  { id := "c1", title := "t", user_id := "u1", model_id := "gpt-4",
    created_at := 0, updated_at := 5, messages := [] }

def storeDemo : Store := [convDemo]

def envOk : Env :=
  { now := 0, provider := { deltas := ["Hi!"], failure := none },
    search := Except.ok [], crypto := Except.ok [],
    userPersistFailure := none, historyFetchFailure := none,
    assistantPersistFailure := none }

def envMidFail : Env :=
  { envOk with provider := { deltas := ["Hello", " there"], failure := some "boom" } }

def reqGpt : ChatRequest :=
  { message := "Hi", conversation_id := "c1", model_id := "gpt-4" }

def reqFoo : ChatRequest :=
  { message := "Hi", conversation_id := "c1", model_id := "foo-bar" }

def scenarioAInput : String := "What\x27s the current Bitcoin price?"

def isProviderCall : ChatAction → Bool
  | ChatAction.providerCall _ _ _ => true
  | _ => false

/-! ### Helper lemmas -/

theorem string_data_append (a b : String) : (a ++ b).data = a.data ++ b.data := by
  cases a
  cases b
  rfl

theorem string_append_assoc (a b c : String) : a ++ b ++ c = a ++ (b ++ c) := by
  apply String.ext
  simp only [string_data_append, List.append_assoc]

theorem string_append_empty (s : String) : s ++ "" = s := by
  apply String.ext
  rw [string_data_append]
  exact List.append_nil s.data

theorem prefixMatch_refl (p : List Char) : prefixMatch p p = true := by
  induction p with
  | nil => rfl
  | cons a p ih => simp [prefixMatch, ih]

theorem prefixMatch_extend (p : List Char) :
    ∀ s t : List Char, prefixMatch p s = true → prefixMatch p (s ++ t) = true := by
  induction p with
  | nil => intro s t _; rfl
  | cons a p ih =>
      intro s t h
      cases s with
      | nil => exact Bool.noConfusion (show false = true from h)
      | cons b s =>
          simp only [prefixMatch] at h
          split at h
          · rename_i hab
            show prefixMatch (a :: p) (b :: (s ++ t)) = true
            simp only [prefixMatch]
            rw [if_pos hab]
            exact ih s t h
          · exact Bool.noConfusion h

theorem substrMatch_of_prefixMatch (p s : List Char) (h : prefixMatch p s = true) :
    substrMatch p s = true := by
  cases s with
  | nil => simpa [substrMatch] using h
  | cons c rest => simp [substrMatch, h]

theorem substrMatch_append_right (p : List Char) :
    ∀ a b : List Char, substrMatch p b = true → substrMatch p (a ++ b) = true := by
  intro a
  induction a with
  | nil => intro b h; simpa using h
  | cons c a ih =>
      intro b h
      simp only [List.cons_append, substrMatch, Bool.or_eq_true]
      exact Or.inr (ih b h)

theorem substrMatch_append_left (p : List Char) :
    ∀ a b : List Char, substrMatch p a = true → substrMatch p (a ++ b) = true := by
  intro a
  induction a with
  | nil =>
      intro b h
      simp only [substrMatch] at h
      exact substrMatch_of_prefixMatch p b (prefixMatch_extend p [] b h)
  | cons c a ih =>
      intro b h
      simp only [substrMatch, Bool.or_eq_true] at h ⊢
      rcases h with h | h
      · exact Or.inl (by simpa using prefixMatch_extend p (c :: a) b h)
      · exact Or.inr (ih b h)

theorem strContains_append_right (a b n : String) (h : strContains b n = true) :
    strContains (a ++ b) n = true := by
  unfold strContains at h ⊢
  rw [string_data_append]
  exact substrMatch_append_right n.data a.data b.data h

theorem strContains_append_left (a b n : String) (h : strContains a n = true) :
    strContains (a ++ b) n = true := by
  unfold strContains at h ⊢
  rw [string_data_append]
  exact substrMatch_append_left n.data a.data b.data h

theorem strContains_self_append (n t : String) : strContains (n ++ t) n = true := by
  unfold strContains
  rw [string_data_append]
  exact substrMatch_of_prefixMatch n.data (n.data ++ t.data)
    (prefixMatch_extend n.data n.data t.data (prefixMatch_refl n.data))

theorem foldl_block_decomp {α : Type} (f : String → α → String) (g : α → String)
    (hf : ∀ acc x, f acc x = acc ++ g x) (l : List α) :
    ∀ init : String, ∃ t : String, l.foldl f init = init ++ t := by
  induction l with
  | nil =>
      intro init
      exact ⟨"", by rw [List.foldl_nil, string_append_empty]⟩
  | cons x xs ih =>
      intro init
      obtain ⟨t, ht⟩ := ih (f init x)
      refine ⟨g x ++ t, ?_⟩
      rw [List.foldl_cons, ht, hf, string_append_assoc]

theorem searchInfoBlock_decomp (results : List SearchResult) :
    ∃ t : String, searchInfoBlock results = webSearchLabel ++ t := by
  unfold searchInfoBlock
  exact foldl_block_decomp _
    (fun r => "- " ++ r.title ++ ": " ++ r.description ++ "\n")
    (fun acc r => by simp [string_append_assoc]) results webSearchLabel

theorem cryptoInfoBlock_decomp (entries : List CryptoEntry) :
    ∃ t : String, cryptoInfoBlock entries = cryptoLabel ++ t := by
  unfold cryptoInfoBlock
  exact foldl_block_decomp _
    (fun e => "- " ++ e.symbol ++ ": $" ++ e.price ++ " (24h change: " ++ e.change ++ "%)\n")
    (fun acc e => by simp [string_append_assoc]) entries cryptoLabel

theorem get_enhanced_context_eq (collab : Collaborators) (msg : String) :
    get_enhanced_context collab msg =
      Except.ok
        { web_search :=
            if matchesFreshness msg then collab.searchResult.toOption else none,
          crypto_data :=
            if matchesMarket msg then collab.cryptoResult.toOption else none } := by
  rcases collab with ⟨sr, cr⟩
  cases sr <;> cases cr <;>
    simp only [get_enhanced_context, Except.toOption] <;>
    split_ifs <;> rfl

theorem applyAppend_id (conversation_id : String) (m : StoredMessage) (c : Conversation) :
    (applyAppend conversation_id m c).id = c.id := by
  unfold applyAppend appendToConversation
  split <;> rfl

theorem findConv_map_applyAppend (m : StoredMessage) (cid cid' : String)
    (store : Store) :
    findConv (store.map (applyAppend cid' m)) cid =
      (findConv store cid).map (applyAppend cid' m) := by
  unfold findConv
  rw [List.find?_map]
  have hp : ((fun c : Conversation => c.id == cid) ∘ applyAppend cid' m) =
      (fun c : Conversation => c.id == cid) := by
    funext c
    simp [Function.comp, applyAppend_id]
  rw [hp]

theorem any_isErrorEvent_map_content (l : List String) :
    (l.map WireEvent.content).any isErrorEvent = false := by
  induction l with
  | nil => rfl
  | cons x xs ih => simp [isErrorEvent, ih]

theorem findConv_add_message (store : Store) (now : Nat) (cid cid' : String)
    (content : String) (role : MessageRole) (model_id : Option String) :
    findConv (add_message store now cid' content role model_id) cid =
      (findConv store cid).map
        (applyAppend cid' { content := content, role := role,
                            model_id := model_id, created_at := now }) := by
  unfold add_message
  exact findConv_map_applyAppend _ cid cid' store

def searchResultDemo : SearchResult :=
  { title := "T", description := "D", url := "U", published := "P", source := "S" }

def cryptoEntryDemo : CryptoEntry :=
  { symbol := "BTCUSDT", price := "1", change := "2" }

/-! ### Claim theorems -/

/-- C1 (code bug): the claim says the Token Accountant estimate of the
assembled message list never exceeds the configured token limit, enforced by
dropping oldest history messages.  The code never consults `count_tokens` or
any limit: `_prepare_messages` unconditionally keeps the system message, the
last ten stored messages and the new user message (its own comment reads
"limited by token count" while the code slices by message count, and
`count_tokens` is never called).  Already at token limit 0 with empty history
the estimate of the assembled list exceeds the limit. -/
theorem token_budget_not_enforced :
    ¬ (count_messages_tokens demoEnc (prepare_messages [] "Hi" emptyContext) ≤ 0) := by
  decide

/-- C3 counterexample: the claim asserts the freshness vocabulary does not
match `"What's the current Bitcoin price?"`; in the code the word "current" is
a freshness keyword and matches this input, so that conjunct of the claim is
false. -/
theorem scenario_a_freshness_cex :
    ¬ (matchesFreshness scenarioAInput = false) := by
  decide

/-- C3 (amended): for the input `"What's the current Bitcoin price?"` BOTH
vocabularies match — "current" is a freshness keyword, "bitcoin" and "price"
are market keywords — so when both collaborator calls succeed with non-empty
results the assembled system message contains the cryptocurrency market-data
section AND the web-search section. -/
theorem scenario_a_both_sections (rs : List SearchResult) (cs : List CryptoEntry)
    (hrs : rs ≠ []) (hcs : cs ≠ []) :
    matchesFreshness scenarioAInput = true ∧
    matchesMarket scenarioAInput = true ∧
    get_enhanced_context { searchResult := Except.ok rs, cryptoResult := Except.ok cs }
        scenarioAInput =
      Except.ok { web_search := some rs, crypto_data := some cs } ∧
    strContains
      (systemContentOf (prepare_messages [] scenarioAInput
        { web_search := some rs, crypto_data := some cs })) webSearchLabel = true ∧
    strContains
      (systemContentOf (prepare_messages [] scenarioAInput
        { web_search := some rs, crypto_data := some cs })) cryptoLabel = true := by
  have hF : matchesFreshness scenarioAInput = true := by decide
  have hM : matchesMarket scenarioAInput = true := by decide
  have hrsE : rs.isEmpty = false := by
    cases rs
    · exact absurd rfl hrs
    · rfl
  have hcsE : cs.isEmpty = false := by
    cases cs
    · exact absurd rfl hcs
    · rfl
  have hsys : systemContentOf (prepare_messages [] scenarioAInput
      { web_search := some rs, crypto_data := some cs }) =
      baseSystemPrompt ++ searchInfoBlock rs ++ cryptoInfoBlock cs := by
    simp [prepare_messages, systemContentOf, truthyList, hrsE, hcsE]
  refine ⟨hF, hM, ?_, ?_, ?_⟩
  · rw [get_enhanced_context_eq]
    simp [hF, hM, Except.toOption]
  · rw [hsys]
    obtain ⟨t, ht⟩ := searchInfoBlock_decomp rs
    rw [ht]
    apply strContains_append_left
    apply strContains_append_right
    exact strContains_self_append _ _
  · rw [hsys]
    obtain ⟨t, ht⟩ := cryptoInfoBlock_decomp cs
    rw [ht]
    apply strContains_append_right
    exact strContains_self_append _ _

/-- C3 witness: the amended theorem applied to one concrete non-empty search
result list and one concrete non-empty market-data list. -/
theorem scenario_a_both_sections_witness :
    matchesFreshness scenarioAInput = true ∧
    matchesMarket scenarioAInput = true ∧
    get_enhanced_context
        { searchResult := Except.ok [searchResultDemo],
          cryptoResult := Except.ok [cryptoEntryDemo] } scenarioAInput =
      Except.ok { web_search := some [searchResultDemo],
                  crypto_data := some [cryptoEntryDemo] } ∧
    strContains
      (systemContentOf (prepare_messages [] scenarioAInput
        { web_search := some [searchResultDemo],
          crypto_data := some [cryptoEntryDemo] })) webSearchLabel = true ∧
    strContains
      (systemContentOf (prepare_messages [] scenarioAInput
        { web_search := some [searchResultDemo],
          crypto_data := some [cryptoEntryDemo] })) cryptoLabel = true :=
  scenario_a_both_sections [searchResultDemo] [cryptoEntryDemo]
    (by decide) (by decide)

/-- C7 (confirmed): for every user text and every behavior of the two
enrichment collaborators (success or raised exception), `_get_enhanced_context`
returns a merged context instead of propagating a failure: a failing call only
leaves its own section absent, and each succeeding triggered call is still
merged into the result. -/
theorem enrichment_never_fails (collab : Collaborators) (msg : String) :
    get_enhanced_context collab msg =
      Except.ok
        { web_search :=
            if matchesFreshness msg then collab.searchResult.toOption else none,
          crypto_data :=
            if matchesMarket msg then collab.cryptoResult.toOption else none } :=
  get_enhanced_context_eq collab msg

/-- C10 (confirmed): a model id that routes to the Groq family but is not one
of the four keys of `groq_model_map` silently resolves to the default model
"llama-3.1-70b-versatile", and the Groq adapter proceeds normally with the
request (relaying the backend deltas) rather than reporting an unknown
model. -/
theorem groq_fallback_model (model_id : String) (b : ProviderBehavior)
    (hroute : routeModel model_id = some Provider.groq)
    (hmap : groq_model_map.lookup model_id = none)
    (hb : b.failure = none) :
    groqResolve model_id = "llama-3.1-70b-versatile" ∧
      generate_ai_response_chunks b model_id = b.deltas := by
  constructor
  · unfold groqResolve
    rw [hmap]
    rfl
  · simp [generate_ai_response_chunks, hroute, groqResponseChunks, hb]

/-- C10 witness: the Groq-routed id "groq-fast" is not in the alias table and
falls back to the default model while streaming proceeds. -/
theorem groq_fallback_model_witness :
    groqResolve "groq-fast" = "llama-3.1-70b-versatile" ∧
      generate_ai_response_chunks { deltas := ["ok"], failure := none } "groq-fast" =
        ["ok"] :=
  groq_fallback_model "groq-fast" { deltas := ["ok"], failure := none }
    (by decide) (by decide) rfl

/-- C5 (confirmed): every wire stream produced by `generate_stream` is a
(possibly empty) run of content events — the relayed chunks in generation
order, or nothing when the pipeline failed before streaming — followed by
exactly one terminal event, which is either `[DONE]` or a single error
event. -/
theorem single_terminal_event (env : Env) (store : Store) (req : ChatRequest) :
    ∃ cs t,
      (generate_stream env store req).events = cs.map WireEvent.content ++ [t] ∧
      (t = WireEvent.done ∨ ∃ m, t = WireEvent.errorEvent m) ∧
      (cs = [] ∨ cs = generate_ai_response_chunks env.provider req.model_id) := by
  simp only [generate_stream]
  cases hu : env.userPersistFailure with
  | some e =>
      exact ⟨[], WireEvent.errorEvent ("Error: " ++ e), rfl, Or.inr ⟨_, rfl⟩, Or.inl rfl⟩
  | none =>
      cases hh : env.historyFetchFailure with
      | some e =>
          exact ⟨[], WireEvent.errorEvent ("Error: " ++ e), rfl, Or.inr ⟨_, rfl⟩,
            Or.inl rfl⟩
      | none =>
          cases hc : get_conversation_with_messages
              (add_message store env.now req.conversation_id req.message
                MessageRole.user (some req.model_id)) req.conversation_id with
          | none =>
              exact ⟨[], WireEvent.errorEvent "Error: conversation not found", rfl,
                Or.inr ⟨_, rfl⟩, Or.inl rfl⟩
          | some conversation =>
              cases hctx : get_enhanced_context
                  { searchResult := env.search, cryptoResult := env.crypto }
                  req.message with
              | error e =>
                  exact ⟨[], WireEvent.errorEvent ("Error: " ++ e), rfl,
                    Or.inr ⟨_, rfl⟩, Or.inl rfl⟩
              | ok context =>
                  cases ha : env.assistantPersistFailure with
                  | some e =>
                      exact ⟨generate_ai_response_chunks env.provider req.model_id,
                        WireEvent.errorEvent ("Error: " ++ e), rfl, Or.inr ⟨_, rfl⟩,
                        Or.inr rfl⟩
                  | none =>
                      exact ⟨generate_ai_response_chunks env.provider req.model_id,
                        WireEvent.done, rfl, Or.inl rfl, Or.inr rfl⟩

/-- C6 (confirmed): whenever the trace of a request contains a provider call,
the very first action of the trace is the persistence of the user message, so
the user message is persisted before any provider call begins. -/
theorem persist_user_before_provider (env : Env) (store : Store) (req : ChatRequest)
    (p : Provider) (m : String) (msgs : List ChatMessage)
    (h : ChatAction.providerCall p m msgs ∈ (generate_stream env store req).actions) :
    (generate_stream env store req).actions.head? =
      some (ChatAction.persistMessage req.conversation_id MessageRole.user req.message) := by
  simp only [generate_stream] at h ⊢
  cases hu : env.userPersistFailure with
  | some e =>
      rw [hu] at h
      simp at h
  | none =>
      cases hh : env.historyFetchFailure with
      | some e => simp
      | none =>
          cases hc : get_conversation_with_messages
              (add_message store env.now req.conversation_id req.message
                MessageRole.user (some req.model_id)) req.conversation_id with
          | none => simp
          | some conversation =>
              cases hctx : get_enhanced_context
                  { searchResult := env.search, cryptoResult := env.crypto }
                  req.message with
              | error e => simp
              | ok context =>
                  cases ha : env.assistantPersistFailure with
                  | some e => simp
                  | none => simp

/-- C6 witness: a concrete request routed to OpenAI whose trace contains the
provider call; the theorem yields that the trace starts with the user
persist. -/
theorem persist_user_before_provider_witness :
    (generate_stream envOk storeDemo reqGpt).actions.head? =
      some (ChatAction.persistMessage "c1" MessageRole.user "Hi") :=
  persist_user_before_provider envOk storeDemo reqGpt Provider.openai "gpt-4"
    (prepare_messages [{ content := "Hi", role := MessageRole.user,
                         model_id := some "gpt-4", created_at := 0 }] "Hi" emptyContext)
    (by decide)

/-- C2 counterexample: for `modelId = "foo-bar"` (claimed by no provider
family) the pipeline does NOT fail with any error: the routing chain falls
through silently, the stream terminates with the success terminal `[DONE]`,
and an assistant message with empty content IS persisted — contradicting the
claimed `UnroutableModel` failure and the claimed absence of an assistant
persist. -/
theorem unroutable_model_cex :
    (generate_stream envOk storeDemo reqFoo).events = [WireEvent.done] ∧
    (generate_stream envOk storeDemo reqFoo).events.any isErrorEvent = false ∧
    ChatAction.persistMessage "c1" MessageRole.assistant "" ∈
      (generate_stream envOk storeDemo reqFoo).actions := by
  decide

/-- C2 (amended): for every model id claimed by no provider family, the
pipeline makes no provider call, but instead of raising `UnroutableModel` it
silently yields no content, persists an assistant message with empty content,
and terminates the stream with `[DONE]`; conversation state thus gains both
the user message and an empty assistant message. -/
theorem unroutable_model_silent (env : Env) (store : Store) (req : ChatRequest)
    (c0 : Conversation)
    (hroute : routeModel req.model_id = none)
    (hu : env.userPersistFailure = none)
    (hh : env.historyFetchFailure = none)
    (ha : env.assistantPersistFailure = none)
    (hc : findConv store req.conversation_id = some c0) :
    (generate_stream env store req).events = [WireEvent.done] ∧
    (generate_stream env store req).actions.any isProviderCall = false ∧
    ChatAction.persistMessage req.conversation_id MessageRole.assistant "" ∈
      (generate_stream env store req).actions := by
  have hfc : get_conversation_with_messages
      (add_message store env.now req.conversation_id req.message MessageRole.user
        (some req.model_id)) req.conversation_id =
      some (applyAppend req.conversation_id
        { content := req.message, role := MessageRole.user,
          model_id := some req.model_id, created_at := env.now } c0) := by
    unfold get_conversation_with_messages
    rw [findConv_add_message, hc]
    rfl
  have hchunks : generate_ai_response_chunks env.provider req.model_id = [] := by
    simp [generate_ai_response_chunks, hroute]
  simp only [generate_stream, hu, hh, ha, hfc, get_enhanced_context_eq, hroute, hchunks]
  refine ⟨by simp, ?_, ?_⟩
  · split_ifs <;> simp [isProviderCall, String.join]
  · split_ifs <;> simp [String.join]

/-- C2 witness: the amended theorem applied at the concrete unroutable id
"foo-bar". -/
theorem unroutable_model_silent_witness :
    (generate_stream envOk storeDemo reqFoo).events = [WireEvent.done] ∧
    (generate_stream envOk storeDemo reqFoo).actions.any isProviderCall = false ∧
    ChatAction.persistMessage "c1" MessageRole.assistant "" ∈
      (generate_stream envOk storeDemo reqFoo).actions :=
  unroutable_model_silent envOk storeDemo reqFoo convDemo
    (by decide) rfl rfl rfl (by decide)

/-- C4 counterexample: when the OpenAI backend emits "Hello", " there" and
then raises "boom", the wire stream contains NO error event — the adapter
converts the exception into a third *content* chunk "Error: boom" and the
stream still terminates with `[DONE]` — and the persisted assistant message is
"Hello thereError: boom" with no `[incomplete]` tag, contradicting the claimed
error event and the claimed `[incomplete]`-tagged partial text. -/
theorem midstream_error_cex :
    (generate_stream envMidFail storeDemo reqGpt).events =
      [WireEvent.content "Hello", WireEvent.content " there",
       WireEvent.content "Error: boom", WireEvent.done] ∧
    (generate_stream envMidFail storeDemo reqGpt).events.any isErrorEvent = false ∧
    ChatAction.persistMessage "c1" MessageRole.assistant "Hello thereError: boom" ∈
      (generate_stream envMidFail storeDemo reqGpt).actions ∧
    strContains "Hello thereError: boom" "[incomplete]" = false := by
  decide

/-- C4 (amended): when an OpenAI-routed provider fails mid-stream after
emitting some deltas (possibly zero), the wire stream yields those deltas as
content events followed by one more *content* event carrying "Error: <e>" and
then the success terminal `[DONE]` — no error event at all — and an assistant
message is always persisted whose content is the concatenation of the deltas
and the error text, with no `[incomplete]` tag. -/
theorem midstream_error_behavior (env : Env) (store : Store) (req : ChatRequest)
    (c0 : Conversation) (deltas : List String) (e : String)
    (hp : env.provider = { deltas := deltas, failure := some e })
    (hroute : routeModel req.model_id = some Provider.openai)
    (hu : env.userPersistFailure = none)
    (hh : env.historyFetchFailure = none)
    (ha : env.assistantPersistFailure = none)
    (hc : findConv store req.conversation_id = some c0) :
    (generate_stream env store req).events =
      deltas.map WireEvent.content ++
        [WireEvent.content ("Error: " ++ e), WireEvent.done] ∧
    (generate_stream env store req).events.any isErrorEvent = false ∧
    ChatAction.persistMessage req.conversation_id MessageRole.assistant
        (String.join (deltas ++ ["Error: " ++ e])) ∈
      (generate_stream env store req).actions := by
  have hfc : get_conversation_with_messages
      (add_message store env.now req.conversation_id req.message MessageRole.user
        (some req.model_id)) req.conversation_id =
      some (applyAppend req.conversation_id
        { content := req.message, role := MessageRole.user,
          model_id := some req.model_id, created_at := env.now } c0) := by
    unfold get_conversation_with_messages
    rw [findConv_add_message, hc]
    rfl
  have hchunks : generate_ai_response_chunks env.provider req.model_id =
      deltas ++ ["Error: " ++ e] := by
    simp [generate_ai_response_chunks, hroute, openaiResponseChunks, hp]
  simp only [generate_stream, hu, hh, ha, hfc, get_enhanced_context_eq, hroute, hchunks]
  refine ⟨by simp, ?_, ?_⟩
  · simp [List.map_append, List.any_append, any_isErrorEvent_map_content, isErrorEvent]
  · split_ifs <;> simp

/-- C4 witness: the amended theorem at the concrete run with deltas "Hello",
" there" and failure "boom". -/
theorem midstream_error_behavior_witness :
    (generate_stream envMidFail storeDemo reqGpt).events =
      ["Hello", " there"].map WireEvent.content ++
        [WireEvent.content ("Error: " ++ "boom"), WireEvent.done] ∧
    (generate_stream envMidFail storeDemo reqGpt).events.any isErrorEvent = false ∧
    ChatAction.persistMessage "c1" MessageRole.assistant
        (String.join (["Hello", " there"] ++ ["Error: " ++ "boom"])) ∈
      (generate_stream envMidFail storeDemo reqGpt).actions :=
  midstream_error_behavior envMidFail storeDemo reqGpt convDemo
    ["Hello", " there"] "boom" rfl (by decide) rfl rfl rfl (by decide)

/-- C8 (code bug): the endpoint consults no in-flight state and contains no
`Busy` path: a second stream request on the same conversation is processed in
full exactly like the first — its user message is persisted (a state
mutation), its content is streamed, and it terminates with `[DONE]` — instead
of being rejected with `Busy` before any state mutation. -/
theorem no_single_flight_guard :
    (generate_stream envOk (generate_stream envOk storeDemo reqGpt).store reqGpt).events =
      [WireEvent.content "Hi!", WireEvent.done] ∧
    (generate_stream envOk (generate_stream envOk storeDemo reqGpt).store reqGpt).actions.head? =
      some (ChatAction.persistMessage "c1" MessageRole.user "Hi") ∧
    ¬ ((generate_stream envOk (generate_stream envOk storeDemo reqGpt).store reqGpt).store =
        (generate_stream envOk storeDemo reqGpt).store) := by
  decide

/-- C9 counterexample: appending a message at time 10 to a conversation whose
updated-at is 5 leaves updated-at at 5 — `add_message` only inserts a message
row and never writes the conversations table, so updated-at is NOT bumped as
the claim states. -/
theorem append_updated_at_cex :
    (findConv (add_message storeDemo 10 "c1" "hello" MessageRole.user none) "c1").map
        (fun c => c.updated_at) = some 5 ∧
    ¬ ((findConv (add_message storeDemo 10 "c1" "hello" MessageRole.user none) "c1").map
        (fun c => c.updated_at) = some 10) := by
  decide

/-- C9 (amended): appending a message leaves every field of every conversation
unchanged — id, title, owner id, model id, created-at AND updated-at — and
only the targeted conversation's message list grows by the appended
message. -/
theorem append_preserves_conversation_fields (store : Store) (now : Nat)
    (conversation_id content : String) (role : MessageRole)
    (model_id : Option String) (cid : String) :
    (findConv (add_message store now conversation_id content role model_id) cid).map
        (fun c => (c.id, c.title, c.user_id, c.model_id, c.created_at, c.updated_at)) =
      (findConv store cid).map
        (fun c => (c.id, c.title, c.user_id, c.model_id, c.created_at, c.updated_at)) ∧
    (findConv (add_message store now conversation_id content role model_id) cid).map
        (fun c => c.messages) =
      (findConv store cid).map
        (fun c =>
          if c.id == conversation_id then
            c.messages ++ [{ content := content, role := role,
                             model_id := model_id, created_at := now }]
          else c.messages) := by
  rw [findConv_add_message]
  cases hf : findConv store cid with
  | none => simp
  | some c0 =>
      by_cases hid : c0.id = conversation_id <;>
        simp [applyAppend, appendToConversation, hid]
